import Mathlib

/-!
Shallow embedding of the smart-expense-analyzer core (`main.py`).

Amounts are modelled as rationals (`ℚ`), dates as structured
year/month/day triples (records are assumed to carry valid, parseable
dates, matching the data-model invariant), monthly bucket keys as the
actual "YYYY-MM" strings produced by `strftime("%Y-%m")`, and Python
dicts as insertion-ordered association lists.  The module-level
configuration constants of `main.py` (`INCOME_OVERRIDE_MONTHLY`,
`RENT_AMOUNT`, `RENT_START_MONTH`, `RENT_START_DAY`) are made explicit
parameters of the affordability report, so its behaviour can be stated
for every configuration.
-/

/-- A calendar date, as produced by `datetime.strptime(date, "%Y-%m-%d")`. -/
structure Date where
  year : Nat
  month : Nat
  day : Nat
deriving DecidableEq

/-- A transaction record as loaded by `load_expenses_from_csv`
(the `type` column is called `kind` here). -/
structure Record where
  date : Date
  description : String
  amount : ℚ
  kind : String
  category : String
deriving DecidableEq

/-- Decimal digits of `n`, via `Nat.toDigits` (most significant first). -/
def natDigits (n : Nat) : List Char := Nat.toDigits 10 n

/-- Zero-padding as done by `strftime`: pad the decimal digits of `n` on the
left with `'0'` up to width `w`. -/
def padDigits (w : Nat) (n : Nat) : List Char :=
  List.replicate (w - (natDigits n).length) '0' ++ natDigits n

/-- `date_obj.strftime("%Y-%m")`: the "YYYY-MM" monthly bucket key of a date. -/
def Date.monthKey (d : Date) : String :=
  ⟨padDigits 4 d.year ++ '-' :: padDigits 2 d.month⟩

/-- Gregorian leap-year rule, as used by `calendar.monthrange`. -/
def isLeapYear (y : Nat) : Bool :=
  y % 4 == 0 && (y % 100 != 0 || y % 400 == 0)

/-- `calendar.monthrange(year, month)[1]`: number of days in the month
(meaningful for `month` in `1..12`). -/
def daysInMonth (y m : Nat) : Nat :=
  if m = 2 then (if isLeapYear y then 29 else 28)
  else if m = 4 ∨ m = 6 ∨ m = 9 ∨ m = 11 then 30
  else 31

/-- Python `str.split("-")` on a character list. -/
def splitOnDash : List Char → List (List Char)
  | [] => [[]]
  | c :: rest =>
    if c = '-' then [] :: splitOnDash rest
    else
      match splitOnDash rest with
      | [] => [[c]]
      | g :: gs => (c :: g) :: gs

/-- Helper for `digitsToNat`: accumulate decimal digits. -/
def digitsToNatAux (acc : Nat) : List Char → Option Nat
  | [] => some acc
  | c :: rest =>
    if c.isDigit then digitsToNatAux (acc * 10 + (c.toNat - 48)) rest else none

/-- Python `int()` on a nonempty all-digit string; `none` marks inputs on
which `int()` would raise. -/
def digitsToNat (cs : List Char) : Option Nat :=
  if cs.isEmpty then none else digitsToNatAux 0 cs

/-- `year, month = map(int, month_key.split("-"))`; `(0, 0)` marks inputs on
which the Python would raise. -/
def parseMonthKey (month_key : String) : Nat × Nat :=
  match (splitOnDash month_key.data).map digitsToNat with
  | [some y, some m] => (y, m)
  | _ => (0, 0)

/-- Days in the month denoted by a "YYYY-MM" key. -/
def daysInMonthOfKey (month_key : String) : Nat :=
  daysInMonth (parseMonthKey month_key).1 (parseMonthKey month_key).2

/-- Python `<` on strings: lexicographic comparison by code point. -/
def charListLt : List Char → List Char → Bool
  | [], [] => false
  | [], _ :: _ => true
  | _ :: _, [] => false
  | c :: cs, d :: ds =>
    if c.toNat < d.toNat then true
    else if d.toNat < c.toNat then false
    else charListLt cs ds

/-- Python `a < b` on strings. -/
def strLt (a b : String) : Bool := charListLt a.data b.data

/-- Python `a <= b` on strings. -/
def strLe (a b : String) : Bool := strLt a b || a == b

/-- Insert a key into an ascending (Python string order) sorted list. -/
def insertKey (x : String) : List String → List String
  | [] => [x]
  | y :: ys => if strLe x y then x :: y :: ys else y :: insertKey x ys

/-- Python `sorted(m.keys())`: the keys of an assoc-list map, in ascending
lexicographic order. -/
def sortKeys (m : List (String × α)) : List String :=
  (m.map Prod.fst).foldr insertKey []

/-- Python `xs[-k:]`: the last `k` elements for `k ≥ 1`, and the whole list
for `k = 0` (since `xs[-0:]` is `xs[0:]`). -/
def sliceLast (xs : List α) (k : Nat) : List α :=
  if k = 0 then xs else xs.drop (xs.length - k)

/-- Python `m.get(k, 0)` on an assoc-list dict. -/
def lookup0 (m : List (String × ℚ)) (k : String) : ℚ :=
  match m with
  | [] => 0
  | (k₁, v) :: rest => if k₁ = k then v else lookup0 rest k

/-- Python `m.get(k, {})` on a nested assoc-list dict. -/
def lookupMap (m : List (String × List (String × ℚ))) (k : String) :
    List (String × ℚ) :=
  match m with
  | [] => []
  | (k₁, v) :: rest => if k₁ = k then v else lookupMap rest k

/-- Python `dict` accumulation `m[k] = m.get(k, 0) + a` (repeated
`if k in m then add else insert`), preserving insertion order. -/
def addAmount (m : List (String × ℚ)) (k : String) (a : ℚ) :
    List (String × ℚ) :=
  match m with
  | [] => [(k, a)]
  | (k₁, v) :: rest =>
    if k₁ = k then (k₁, v + a) :: rest else (k₁, v) :: addAmount rest k a

/-- `calculate_total_spent`: sum of the `amount` fields. -/
def calculate_total_spent (expenses : List Record) : ℚ :=
  expenses.foldl (fun total e => total + e.amount) 0

/-- `calculate_category_totals`: per-category sums, insertion ordered. -/
def calculate_category_totals (expenses : List Record) : List (String × ℚ) :=
  expenses.foldl (fun acc e => addAmount acc e.category e.amount) []

/-- `calculate_monthly_totals`: per-month-key sums, insertion ordered. -/
def calculate_monthly_totals (expenses : List Record) : List (String × ℚ) :=
  expenses.foldl (fun acc e => addAmount acc e.date.monthKey e.amount) []

/-- One entry of the month-over-month change report. -/
structure Change where
  fromMonth : String
  toMonth : String
  change : ℚ
  percent_change : ℚ
deriving DecidableEq

/-- `calculate_month_over_month_change`: `None` when fewer than two months,
otherwise one entry per adjacent pair of sorted month keys. -/
def calculate_month_over_month_change (monthly_totals : List (String × ℚ)) :
    Option (List Change) :=
  let months := sortKeys monthly_totals
  if months.length < 2 then none
  else
    some ((List.range (months.length - 1)).map (fun j =>
      let previous_month := months.getD j ""
      let current_month := months.getD (j + 1) ""
      let previous_amount := lookup0 monthly_totals previous_month
      let current_amount := lookup0 monthly_totals current_month
      let change := current_amount - previous_amount
      { fromMonth := previous_month
        toMonth := current_month
        change := change
        percent_change :=
          if previous_amount ≠ 0 then change / previous_amount * 100 else 0 }))

/-- `predict_monthly_spending`: linear run-rate projection for a month.
(The Python collects the matching days into a set; emptiness and maximum of
that set agree with emptiness and maximum of the list of matching days.) -/
def predict_monthly_spending (expenses : List Record) (target_month : String) :
    Option (ℚ × ℚ) :=
  let matching := expenses.filter (fun e => e.date.monthKey == target_month)
  let days_with_data : List ℕ := matching.map (fun e => e.date.day)
  if days_with_data.isEmpty then none
  else
    let total_spent_so_far := (matching.map (fun e => e.amount)).sum
    let latest_day := days_with_data.foldr max 0
    let average_daily_spend := total_spent_so_far / (latest_day : ℚ)
    let days_in_month := daysInMonthOfKey target_month
    some (total_spent_so_far, average_daily_spend * (days_in_month : ℚ))

/-- `evaluate_prediction`: signed error and percent error (0 when actual is 0). -/
def evaluate_prediction (predicted actual : ℚ) : ℚ × ℚ :=
  let error := predicted - actual
  (error, if actual ≠ 0 then error / actual * 100 else 0)

/-- `predict_mid_month`: run-rate projection from the records on days up to
`cutoff_day`, dividing by `cutoff_day`; `None` when the filtered sum is 0. -/
def predict_mid_month (expenses : List Record) (target_month : String)
    (cutoff_day : Nat) : Option ℚ :=
  let spent_until_cutoff :=
    ((expenses.filter (fun e =>
        e.date.monthKey == target_month && decide (e.date.day ≤ cutoff_day))).map
      (fun e => e.amount)).sum
  if spent_until_cutoff = 0 then none
  else
    let days_in_month := daysInMonthOfKey target_month
    some (spent_until_cutoff / (cutoff_day : ℚ) * (days_in_month : ℚ))

/-- Severity of a budget alert. -/
inductive AlertLevel where
  | overBudget
  | warning
deriving DecidableEq

/-- Content of one budget alert (the Python renders this data as a string). -/
structure BudgetAlert where
  level : AlertLevel
  category : String
  spent : ℚ
  budget : ℚ
  pct_used : ℚ
deriving DecidableEq

/-- `evaluate_budgets`: walk the configured budgets in order, alerting at
100% (over budget) and at 80% (warning). -/
def evaluate_budgets (monthly_category_totals : List (String × List (String × ℚ)))
    (current_month : String) (budgets : List (String × ℚ)) : List BudgetAlert :=
  let month_data := lookupMap monthly_category_totals current_month
  budgets.foldl (fun alerts p =>
    let spent := lookup0 month_data p.1
    let pct_used := if p.2 > 0 then spent / p.2 * 100 else 0
    if pct_used ≥ 100 then
      alerts ++ [{ level := .overBudget, category := p.1, spent := spent,
                   budget := p.2, pct_used := pct_used }]
    else if pct_used ≥ 80 then
      alerts ++ [{ level := .warning, category := p.1, spent := spent,
                   budget := p.2, pct_used := pct_used }]
    else alerts) []

/-- `prorate_monthly_amount`: day-weighted fraction of a monthly amount from
`start_day` through end of month, inclusive. -/
def prorate_monthly_amount (month_key : String) (start_day : Nat)
    (full_month_amount : ℚ) : ℚ :=
  let days_in_month := daysInMonthOfKey month_key
  let days_covered : ℤ := (days_in_month : ℤ) - (start_day : ℤ) + 1
  let daily_rate := full_month_amount / (days_in_month : ℚ)
  daily_rate * (days_covered : ℚ)

/-- Python dict count accumulation
`m[k] = m.get(k, 0) + 1`, preserving insertion order. -/
def addCount (m : List (String × ℚ)) (k : String) : List (String × ℚ) :=
  match m with
  | [] => [(k, 1)]
  | (k₁, v) :: rest =>
    if k₁ = k then (k₁, v + 1) :: rest else (k₁, v) :: addCount rest k

/-- The `paychecks_by_month` dict built by `estimate_paycheck_pattern`. -/
def paychecksByMonth (income_rows : List Record) : List (String × ℚ) :=
  income_rows.foldl (fun acc r => addCount acc r.date.monthKey) []

/-- `estimate_paycheck_pattern`: average paycheck amount over ALL income
rows, average paychecks per month over the recent-month window, and the
window of months used. -/
def estimate_paycheck_pattern (income_rows : List Record) (months_back : Nat) :
    ℚ × ℚ × List String :=
  if income_rows.isEmpty then (0, 0, [])
  else
    let paychecks_by_month := paychecksByMonth income_rows
    let paycheck_amounts := income_rows.map (fun r => r.amount)
    let months := sortKeys paychecks_by_month
    let recent_months :=
      if months.length ≥ months_back then sliceLast months months_back else months
    let avg_paycheck_amount := paycheck_amounts.sum / (paycheck_amounts.length : ℚ)
    let avg_paychecks_per_month :=
      if recent_months.isEmpty then 0
      else (recent_months.map (lookup0 paychecks_by_month)).sum /
        (recent_months.length : ℚ)
    (avg_paycheck_amount, avg_paychecks_per_month, recent_months)

/-- `estimate_baseline_nonrent_spending`: mean over the recent-month window
of the per-month sums of absolute non-"Rent" category totals. -/
def estimate_baseline_nonrent_spending
    (monthly_category_totals : List (String × List (String × ℚ)))
    (months_back : Nat) : ℚ × List String :=
  let months := sortKeys monthly_category_totals
  let recent_months :=
    if months.length ≥ months_back then sliceLast months months_back else months
  if recent_months.isEmpty then (0, [])
  else
    let monthly_spend_values := recent_months.map (fun m =>
      (((lookupMap monthly_category_totals m).filter (fun p => p.1 != "Rent")).map
        (fun p => |p.2|)).sum)
    (monthly_spend_values.sum / (monthly_spend_values.length : ℚ), recent_months)

/-- The module-level configuration constants of `main.py` that
`rent_affordability_report` reads (`INCOME_OVERRIDE_MONTHLY`, `RENT_AMOUNT`,
`RENT_START_MONTH`, `RENT_START_DAY`), made explicit. -/
structure Config where
  income_override_monthly : Option ℚ
  rent_amount : ℚ
  rent_start_month : String
  rent_start_day : Nat

/-- The affordability report value object. -/
structure AffordabilityReport where
  month : String
  projected_income : ℚ
  baseline_nonrent_spend : ℚ
  projected_rent : ℚ
  projected_total_spend : ℚ
  projected_net : ℚ
  rent_pct_income : ℚ
  spend_pct_income : ℚ
deriving DecidableEq

/-- `rent_affordability_report`: projected income (override or paycheck
statistics), projected rent by the month decision table, totals, net, and
income ratios with the divide-by-zero guard. -/
def rent_affordability_report (cfg : Config) (target_month : String)
    (avg_paycheck_amount avg_paychecks_per_month baseline_nonrent_spend : ℚ) :
    AffordabilityReport :=
  let projected_income :=
    match cfg.income_override_monthly with
    | some v => v
    | none => avg_paycheck_amount * avg_paychecks_per_month
  let projected_rent :=
    if target_month = cfg.rent_start_month then
      prorate_monthly_amount target_month cfg.rent_start_day cfg.rent_amount
    else if strLt cfg.rent_start_month target_month then cfg.rent_amount
    else 0
  let projected_total_spend := baseline_nonrent_spend + projected_rent
  let projected_net := projected_income - projected_total_spend
  let rent_pct_income :=
    if projected_income > 0 then projected_rent / projected_income * 100 else 0
  let spend_pct_income :=
    if projected_income > 0 then projected_total_spend / projected_income * 100
    else 0
  { month := target_month
    projected_income := projected_income
    baseline_nonrent_spend := baseline_nonrent_spend
    projected_rent := projected_rent
    projected_total_spend := projected_total_spend
    projected_net := projected_net
    rent_pct_income := rent_pct_income
    spend_pct_income := spend_pct_income }

/-- Every month length is positive (28, 29, 30 or 31 days). -/
theorem daysInMonth_pos (y m : Nat) : 0 < daysInMonth y m := by
  unfold daysInMonth
  split_ifs <;> norm_num

/-- Python string `<` is irreflexive. -/
theorem charListLt_irrefl (cs : List Char) : charListLt cs cs = false := by
  induction cs with
  | nil => rfl
  | cons c rest ih => simp [charListLt, ih]

/-- Python string `<` is asymmetric. -/
theorem charListLt_asymm (as bs : List Char) (h : charListLt as bs = true) :
    charListLt bs as = false := by
  induction as generalizing bs with
  | nil =>
    cases bs with
    | nil => simp [charListLt] at h
    | cons d ds => rfl
  | cons c cs ih =>
    cases bs with
    | nil => simp [charListLt] at h
    | cons d ds =>
      by_cases h1 : c.toNat < d.toNat
      · have h2 : ¬ d.toNat < c.toNat := Nat.lt_asymm h1
        simp [charListLt, h1, h2]
      · by_cases h2 : d.toNat < c.toNat
        · simp [charListLt, h1, h2] at h
        · simp [charListLt, h1, h2] at h ⊢
          exact ih ds h

/-- `strLt` is irreflexive. -/
theorem strLt_irrefl (s : String) : strLt s s = false :=
  charListLt_irrefl s.data

/-- `strLt` is asymmetric. -/
theorem strLt_asymm (a b : String) (h : strLt a b = true) : strLt b a = false :=
  charListLt_asymm a.data b.data h

/-- Sum of the values of an assoc-list map. -/
def valuesSum (m : List (String × ℚ)) : ℚ := (m.map Prod.snd).sum

/-- Accumulating an amount under a key adds it to the value sum. -/
theorem valuesSum_addAmount (m : List (String × ℚ)) (k : String) (a : ℚ) :
    valuesSum (addAmount m k a) = valuesSum m + a := by
  induction m with
  | nil => simp [addAmount, valuesSum]
  | cons p rest ih =>
    obtain ⟨k₁, v⟩ := p
    by_cases h : k₁ = k
    · simp [addAmount, h, valuesSum]
      ring
    · simp [addAmount, h, valuesSum] at *
      rw [ih]
      ring

/-- Folding amount accumulation over records adds the total of the amounts. -/
theorem valuesSum_foldl_addAmount (key : Record → String) (l : List Record)
    (m : List (String × ℚ)) :
    valuesSum (l.foldl (fun acc e => addAmount acc (key e) e.amount) m) =
      valuesSum m + (l.map (fun e => e.amount)).sum := by
  induction l generalizing m with
  | nil => simp
  | cons e t ih =>
    simp only [List.foldl_cons, List.map_cons, List.sum_cons]
    rw [ih, valuesSum_addAmount]
    ring

/-- `calculate_total_spent` is the sum of the amounts. -/
theorem calculate_total_spent_eq_sum (expenses : List Record) :
    calculate_total_spent expenses = (expenses.map (fun e => e.amount)).sum := by
  unfold calculate_total_spent
  have h : ∀ (l : List Record) (c : ℚ),
      l.foldl (fun total e => total + e.amount) c = c + (l.map (fun e => e.amount)).sum := by
    intro l
    induction l with
    | nil => simp
    | cons e t ih =>
      intro c
      simp only [List.foldl_cons, List.map_cons, List.sum_cons, ih]
      ring
  rw [h]
  ring

/-- The fold of `max` over a nonempty list of naturals is an element of it. -/
theorem foldr_max_mem (l : List Nat) (h : l ≠ []) : l.foldr max 0 ∈ l := by
  induction l with
  | nil => exact absurd rfl h
  | cons a t ih =>
    cases t with
    | nil => simp
    | cons b u =>
      rcases Nat.le_total a ((b :: u).foldr max 0) with h1 | h1
      · have : (a :: b :: u).foldr max 0 = (b :: u).foldr max 0 := by
          simp only [List.foldr_cons] at *
          omega
        rw [this]
        exact List.mem_cons_of_mem a (ih (by simp))
      · have : (a :: b :: u).foldr max 0 = a := by
          simp only [List.foldr_cons] at *
          omega
        rw [this]
        exact List.mem_cons_self a _

/-- Every element of a list of naturals is at most the fold of `max` over it. -/
theorem le_foldr_max (l : List Nat) (x : Nat) (hx : x ∈ l) :
    x ≤ l.foldr max 0 := by
  induction l with
  | nil => cases hx
  | cons a t ih =>
    rcases List.mem_cons.mp hx with h | h
    · subst h
      simp only [List.foldr_cons]
      omega
    · have := ih h
      simp only [List.foldr_cons]
      omega

/-- A left fold that only appends is the initial list followed by the
concatenation of the generated chunks. -/
theorem foldl_append_eq_flatMap {α β : Type} (g : α → List β) (l : List α)
    (acc : List β) :
    l.foldl (fun a x => a ++ g x) acc = acc ++ l.flatMap g := by
  induction l generalizing acc with
  | nil => simp
  | cons x t ih => simp [ih]

/-- In a map whose keys are distinct, a key determines its value. -/
theorem nodup_keys_value_eq {α : Type} (l : List (String × α))
    (hnd : (l.map Prod.fst).Nodup) (k : String) (a b : α)
    (ha : (k, a) ∈ l) (hb : (k, b) ∈ l) : a = b := by
  induction l with
  | nil => cases ha
  | cons p rest ih =>
    simp only [List.map_cons, List.nodup_cons] at hnd
    rcases List.mem_cons.mp ha with h1 | h1 <;>
      rcases List.mem_cons.mp hb with h2 | h2
    · have h3 : (k, a) = (k, b) := h1.trans h2.symm
      simpa using h3
    · exfalso
      apply hnd.1
      have h3 : k ∈ rest.map Prod.fst := List.mem_map.mpr ⟨(k, b), h2, rfl⟩
      rw [← h1]
      exact h3
    · exfalso
      apply hnd.1
      have h3 : k ∈ rest.map Prod.fst := List.mem_map.mpr ⟨(k, a), h1, rfl⟩
      rw [← h2]
      exact h3
    · exact ih hnd.2 h1 h2

/-- Counting a key bumps its looked-up count by one and leaves others alone. -/
theorem lookup0_addCount (m : List (String × ℚ)) (k q : String) :
    lookup0 (addCount m k) q = lookup0 m q + (if k = q then 1 else 0) := by
  induction m with
  | nil =>
    by_cases h : k = q <;> simp [addCount, lookup0, h]
  | cons p rest ih =>
    obtain ⟨k₁, v⟩ := p
    by_cases h1 : k₁ = k
    · subst h1
      by_cases h2 : k₁ = q <;> simp [addCount, lookup0, h2]
    · by_cases h2 : k₁ = q
      · subst h2
        have hkq : ¬ k = k₁ := fun e => h1 e.symm
        simp [addCount, lookup0, h1, hkq]
      · simp [addCount, lookup0, h1, h2, ih]

/-- The per-month paycheck counter counts the income rows of each month. -/
theorem lookup0_paychecksByMonth (income_rows : List Record) (q : String) :
    lookup0 (paychecksByMonth income_rows) q =
      ((income_rows.filter (fun r => r.date.monthKey == q)).length : ℚ) := by
  unfold paychecksByMonth
  have h : ∀ (l : List Record) (acc : List (String × ℚ)),
      lookup0 (l.foldl (fun a r => addCount a r.date.monthKey) acc) q =
        lookup0 acc q + ((l.filter (fun r => r.date.monthKey == q)).length : ℚ) := by
    intro l
    induction l with
    | nil => simp
    | cons r t ih =>
      intro acc
      simp only [List.foldl_cons, ih, lookup0_addCount, List.filter_cons]
      by_cases h : r.date.monthKey = q
      · simp [h]
        ring
      · have hb : (r.date.monthKey == q) = false := by
          simp [h]
        simp [h, hb]
  rw [h]
  simp [lookup0]

/-- Counting never produces an empty map. -/
theorem addCount_ne_nil (m : List (String × ℚ)) (k : String) :
    addCount m k ≠ [] := by
  cases m with
  | nil => simp [addCount]
  | cons p rest =>
    obtain ⟨k₁, v⟩ := p
    by_cases h : k₁ = k <;> simp [addCount, h]

/-- The paycheck counter of a nonempty row list is nonempty. -/
theorem paychecksByMonth_ne_nil (income_rows : List Record)
    (h : income_rows ≠ []) : paychecksByMonth income_rows ≠ [] := by
  unfold paychecksByMonth
  have key : ∀ (l : List Record) (acc : List (String × ℚ)), acc ≠ [] →
      l.foldl (fun a r => addCount a r.date.monthKey) acc ≠ [] := by
    intro l
    induction l with
    | nil => intro acc ha; simpa using ha
    | cons r t ih =>
      intro acc _
      simp only [List.foldl_cons]
      exact ih _ (addCount_ne_nil acc r.date.monthKey)
  cases income_rows with
  | nil => exact absurd rfl h
  | cons r t =>
    simp only [List.foldl_cons]
    exact key t _ (addCount_ne_nil [] r.date.monthKey)

/-- Inserting a key grows the sorted list by one. -/
theorem length_insertKey (x : String) (l : List String) :
    (insertKey x l).length = l.length + 1 := by
  induction l with
  | nil => rfl
  | cons y ys ih =>
    by_cases h : strLe x y = true <;> simp [insertKey, h, ih]

/-- Sorting the keys of a map keeps their number. -/
theorem length_sortKeys {α : Type} (m : List (String × α)) :
    (sortKeys m).length = m.length := by
  unfold sortKeys
  have h : ∀ l : List String, (l.foldr insertKey []).length = l.length := by
    intro l
    induction l with
    | nil => rfl
    | cons x xs ih => simp [length_insertKey, ih]
  rw [h, List.length_map]

/-- For a positive window, the Python slice `xs[-k:]` guarded by
`len(xs) >= k` is a `drop`. -/
theorem window_eq_drop {α : Type} (xs : List α) (k : Nat) (hk : 1 ≤ k) :
    (if xs.length ≥ k then sliceLast xs k else xs) =
      xs.drop (xs.length - k) := by
  by_cases h : xs.length ≥ k
  · have hk0 : k ≠ 0 := by omega
    simp [h, sliceLast, hk0]
  · have : xs.length - k = 0 := by omega
    simp [h, this]

/-- C3: for every valid month key (month component in 1..12) and every
amount X, prorating from day 1 returns the full amount:
`prorate_monthly_amount m 1 X = X`, since the days covered are
`daysInMonth - 1 + 1 = daysInMonth` and `(X / daysInMonth) * daysInMonth = X`
exactly over the rationals. -/
theorem prorate_from_day_one_is_identity (month_key : String) (X : ℚ)
    (h1 : 1 ≤ (parseMonthKey month_key).2)
    (h2 : (parseMonthKey month_key).2 ≤ 12) :
    prorate_monthly_amount month_key 1 X = X := by
  have hpos : 0 < daysInMonthOfKey month_key := daysInMonth_pos _ _
  have hne : (daysInMonthOfKey month_key : ℚ) ≠ 0 := by
    exact_mod_cast hpos.ne'
  simp only [prorate_monthly_amount]
  push_cast
  field_simp

/-- C3 witness: prorating 1400 from day 1 of February 2026 gives 1400. -/
theorem prorate_from_day_one_is_identity_witness :
    prorate_monthly_amount "2026-02" 1 1400 = 1400 :=
  prorate_from_day_one_is_identity "2026-02" 1400 (by decide) (by decide)

/-- C2: the projected fixed cost (rent) in the affordability report is
decided by lexicographic comparison of the "YYYY-MM" strings: prorated from
the configured start day in the start month, the full amount for months
after it, and zero for months before it. -/
theorem projected_rent_decision_table (cfg : Config) (target_month : String)
    (apa appm bns : ℚ) :
    (target_month = cfg.rent_start_month →
      (rent_affordability_report cfg target_month apa appm bns).projected_rent =
        prorate_monthly_amount target_month cfg.rent_start_day cfg.rent_amount) ∧
    (strLt cfg.rent_start_month target_month = true →
      (rent_affordability_report cfg target_month apa appm bns).projected_rent =
        cfg.rent_amount) ∧
    (strLt target_month cfg.rent_start_month = true →
      (rent_affordability_report cfg target_month apa appm bns).projected_rent = 0) := by
  refine ⟨?_, ?_, ?_⟩
  · intro h
    simp [rent_affordability_report, h]
  · intro h
    have hne : target_month ≠ cfg.rent_start_month := by
      intro e
      rw [e, strLt_irrefl] at h
      exact Bool.noConfusion h
    simp [rent_affordability_report, hne, h]
  · intro h
    have hne : target_month ≠ cfg.rent_start_month := by
      intro e
      rw [e, strLt_irrefl] at h
      exact Bool.noConfusion h
    have hasym : strLt cfg.rent_start_month target_month = false :=
      strLt_asymm _ _ h
    simp [rent_affordability_report, hne, hasym]

/-- C2 witness: with the source configuration (rent 1400 starting
2026-02-14), projected rent is the prorated 750 in 2026-02, the full 1400 in
2026-03, and 0 in 2026-01. -/
theorem projected_rent_decision_table_witness :
    (rent_affordability_report ⟨some 3300, 1400, "2026-02", 14⟩ "2026-02" 0 0 0).projected_rent = 750 ∧
    (rent_affordability_report ⟨some 3300, 1400, "2026-02", 14⟩ "2026-03" 0 0 0).projected_rent = 1400 ∧
    (rent_affordability_report ⟨some 3300, 1400, "2026-02", 14⟩ "2026-01" 0 0 0).projected_rent = 0 := by
  refine ⟨?_, ?_, ?_⟩
  · have h := (projected_rent_decision_table ⟨some 3300, 1400, "2026-02", 14⟩
      "2026-02" 0 0 0).1 rfl
    rw [h]
    have hdim : daysInMonthOfKey "2026-02" = 28 := by decide
    simp [prorate_monthly_amount, hdim]
    norm_num
  · exact (projected_rent_decision_table ⟨some 3300, 1400, "2026-02", 14⟩
      "2026-03" 0 0 0).2.1 (by decide)
  · exact (projected_rent_decision_table ⟨some 3300, 1400, "2026-02", 14⟩
      "2026-01" 0 0 0).2.2 (by decide)

/-- C4: `predict_monthly_spending` returns none exactly when no record falls
in the target month; otherwise it returns the sum S of the matching amounts
together with `S / L * daysInMonth`, where L — the fold of max over the
matching days — is the largest day-of-month carrying a matching record. In
particular a single 100 record on day 10 of the 30-day month 2026-04 yields
(100, 300). -/
theorem predict_monthly_spending_spec (expenses : List Record)
    (target_month : String) :
    (predict_monthly_spending expenses target_month = none ↔
      expenses.filter (fun e => e.date.monthKey == target_month) = []) ∧
    (expenses.filter (fun e => e.date.monthKey == target_month) ≠ [] →
      predict_monthly_spending expenses target_month =
        some ((((expenses.filter (fun e => e.date.monthKey == target_month)).map
            (fun e => e.amount)).sum),
          (((expenses.filter (fun e => e.date.monthKey == target_month)).map
            (fun e => e.amount)).sum /
            ((((expenses.filter (fun e => e.date.monthKey == target_month)).map
              (fun e => e.date.day)).foldr max 0 : ℕ) : ℚ) *
            (daysInMonthOfKey target_month : ℚ)))) ∧
    (expenses.filter (fun e => e.date.monthKey == target_month) ≠ [] →
      (∃ e ∈ expenses.filter (fun e => e.date.monthKey == target_month),
        e.date.day =
          ((expenses.filter (fun e => e.date.monthKey == target_month)).map
            (fun e => e.date.day)).foldr max 0) ∧
      (∀ e ∈ expenses.filter (fun e => e.date.monthKey == target_month),
        e.date.day ≤
          ((expenses.filter (fun e => e.date.monthKey == target_month)).map
            (fun e => e.date.day)).foldr max 0)) ∧
    predict_monthly_spending [⟨⟨2026, 4, 10⟩, "", 100, "expense", ""⟩] "2026-04" =
      some (100, 300) := by
  refine ⟨?_, ?_, ?_, ?_⟩
  · by_cases hF : expenses.filter (fun e => e.date.monthKey == target_month) = [] <;>
      simp [predict_monthly_spending, hF]
  · intro hF
    have hne : ¬ ((expenses.filter (fun e => e.date.monthKey == target_month)).map
        (fun e => e.date.day)).isEmpty = true := by
      simpa using hF
    simp only [predict_monthly_spending]
    rw [if_neg hne]
  · intro hF
    have hmapne : (expenses.filter (fun e => e.date.monthKey == target_month)).map
        (fun e => e.date.day) ≠ [] := by
      simpa using hF
    constructor
    · have hmem := foldr_max_mem _ hmapne
      rcases List.mem_map.mp hmem with ⟨e, he, hday⟩
      exact ⟨e, he, hday⟩
    · intro e he
      exact le_foldr_max _ _ (List.mem_map_of_mem (fun e => e.date.day) he)
  · have hkey : (Date.mk 2026 4 10).monthKey = "2026-04" := by decide
    have hdim : daysInMonthOfKey "2026-04" = 30 := by decide
    simp [predict_monthly_spending, hkey, hdim]
    norm_num

/-- C4 witness: the general branch applied to the single-record month. -/
theorem predict_monthly_spending_spec_witness :
    predict_monthly_spending [⟨⟨2026, 4, 10⟩, "", 100, "expense", ""⟩] "2026-04" =
      some (100, 300) := by
  have h := (predict_monthly_spending_spec
    [⟨⟨2026, 4, 10⟩, "", 100, "expense", ""⟩] "2026-04").2.1 (by decide)
  rw [h]
  have hkey : (Date.mk 2026 4 10).monthKey = "2026-04" := by decide
  have hdim : daysInMonthOfKey "2026-04" = 30 := by decide
  simp [hkey, hdim]
  norm_num

/-- C1 counterexample: `predict_mid_month` divides by the cutoff day, not by
the latest active day among the considered records. For a single 100 record
on day 10 of 2026-04 with cutoff day 15, it projects 100/15*30 = 200, while
`predict_monthly_spending`'s run-rate math on the records restricted to
day ≤ 15 projects 100/10*30 = 300. -/
theorem predict_mid_month_counterexample :
    predict_mid_month [⟨⟨2026, 4, 10⟩, "", 100, "expense", ""⟩] "2026-04" 15 =
      some 200 ∧
    predict_monthly_spending
        (List.filter (fun e => decide (e.date.day ≤ 15))
          [⟨⟨2026, 4, 10⟩, "", 100, "expense", ""⟩]) "2026-04" =
      some (100, 300) ∧
    (200 : ℚ) ≠ 300 := by
  have hkey : (Date.mk 2026 4 10).monthKey = "2026-04" := by decide
  have hdim : daysInMonthOfKey "2026-04" = 30 := by decide
  refine ⟨?_, ?_, by norm_num⟩
  · simp [predict_mid_month, hkey, hdim]
    norm_num
  · have hfil : List.filter (fun e => decide (e.date.day ≤ 15))
        [(⟨⟨2026, 4, 10⟩, "", 100, "expense", ""⟩ : Record)] =
        [⟨⟨2026, 4, 10⟩, "", 100, "expense", ""⟩] := by
      simp
    rw [hfil]
    simp [predict_monthly_spending, hkey, hdim]
    norm_num

/-- C1 amended: `predict_mid_month` returns none exactly when the sum of the
amounts of the target-month records with day ≤ cutoff is zero; otherwise it
returns `(filteredSum / cutoffDay) * daysInMonth` — the run-rate divisor is
the cutoff day itself, not the latest active day among the considered
records. -/
theorem predict_mid_month_spec (expenses : List Record) (target_month : String)
    (cutoff_day : Nat) :
    (predict_mid_month expenses target_month cutoff_day = none ↔
      ((expenses.filter (fun e =>
          e.date.monthKey == target_month && decide (e.date.day ≤ cutoff_day))).map
        (fun e => e.amount)).sum = 0) ∧
    (((expenses.filter (fun e =>
          e.date.monthKey == target_month && decide (e.date.day ≤ cutoff_day))).map
        (fun e => e.amount)).sum ≠ 0 →
      predict_mid_month expenses target_month cutoff_day =
        some (((expenses.filter (fun e =>
            e.date.monthKey == target_month && decide (e.date.day ≤ cutoff_day))).map
          (fun e => e.amount)).sum / (cutoff_day : ℚ) *
          (daysInMonthOfKey target_month : ℚ))) := by
  constructor
  · by_cases h : ((expenses.filter (fun e =>
        e.date.monthKey == target_month && decide (e.date.day ≤ cutoff_day))).map
      (fun e => e.amount)).sum = 0 <;>
      simp [predict_mid_month, h]
  · intro h
    simp [predict_mid_month, h]

/-- C1 amended witness: the nonzero branch at the single-record month. -/
theorem predict_mid_month_spec_witness :
    predict_mid_month [⟨⟨2026, 4, 10⟩, "", 100, "expense", ""⟩] "2026-04" 15 =
      some 200 := by
  have hkey : (Date.mk 2026 4 10).monthKey = "2026-04" := by decide
  have hdim : daysInMonthOfKey "2026-04" = 30 := by decide
  have h := (predict_mid_month_spec
    [⟨⟨2026, 4, 10⟩, "", 100, "expense", ""⟩] "2026-04" 15).2 (by
      simp [hkey])
  rw [h]
  simp [hkey, hdim]
  norm_num

/-- C10: grouping conserves the grand total: the values of the category
totals map and the values of the monthly totals map each sum to
`calculate_total_spent` of the same records. -/
theorem grouping_preserves_total (records : List Record) :
    valuesSum (calculate_category_totals records) = calculate_total_spent records ∧
    valuesSum (calculate_monthly_totals records) = calculate_total_spent records := by
  constructor
  · have h := valuesSum_foldl_addAmount (fun e => e.category) records []
    rw [calculate_total_spent_eq_sum]
    unfold calculate_category_totals
    simpa [valuesSum] using h
  · have h := valuesSum_foldl_addAmount (fun e => e.date.monthKey) records []
    rw [calculate_total_spent_eq_sum]
    unfold calculate_monthly_totals
    simpa [valuesSum] using h

/-- C7: with fewer than two month keys the month-over-month report is none;
otherwise it is a list with exactly one entry per adjacent pair of the
lexicographically sorted month keys, in order, whose change is the later
month's total minus the earlier month's total. -/
theorem month_over_month_spec (monthly_totals : List (String × ℚ))
    (hnd : (monthly_totals.map Prod.fst).Nodup) :
    (calculate_month_over_month_change monthly_totals = none ↔
      (sortKeys monthly_totals).length < 2) ∧
    (2 ≤ (sortKeys monthly_totals).length →
      ∃ l, calculate_month_over_month_change monthly_totals = some l ∧
        l.length = (sortKeys monthly_totals).length - 1 ∧
        ∀ i (hi : i < l.length),
          (l.get ⟨i, hi⟩).fromMonth = (sortKeys monthly_totals).getD i "" ∧
          (l.get ⟨i, hi⟩).toMonth = (sortKeys monthly_totals).getD (i + 1) "" ∧
          (l.get ⟨i, hi⟩).change =
            lookup0 monthly_totals ((sortKeys monthly_totals).getD (i + 1) "") -
              lookup0 monthly_totals ((sortKeys monthly_totals).getD i "")) := by
  constructor
  · by_cases h : (sortKeys monthly_totals).length < 2 <;>
      simp [calculate_month_over_month_change, h]
  · intro h
    have hlt : ¬ (sortKeys monthly_totals).length < 2 := by omega
    simp only [calculate_month_over_month_change, if_neg hlt]
    refine ⟨_, rfl, by simp, ?_⟩
    intro i hi
    simp only [List.length_map, List.length_range] at hi
    simp [List.get_eq_getElem, List.getElem_map, List.getElem_range]

/-- C7 witness: two months of data give a non-none report. -/
theorem month_over_month_spec_witness :
    calculate_month_over_month_change [("2026-02", (5 : ℚ)), ("2026-01", 2)] ≠
      none := by
  intro hn
  have h := (month_over_month_spec [("2026-02", (5 : ℚ)), ("2026-01", 2)]
    (by decide)).1.mp hn
  revert h
  decide

/-- C8: every ratio with a zero denominator yields 0: a month-over-month
entry whose previous-month amount is 0 has percent change 0, the percent
error against an actual of 0 is 0, and when the projected income is 0 both
affordability ratios are 0. -/
theorem zero_denominator_policy (monthly_totals : List (String × ℚ))
    (c : Change) (l : List Change) (p : ℚ) (cfg : Config) (target_month : String)
    (apa appm bns : ℚ) :
    (calculate_month_over_month_change monthly_totals = some l → c ∈ l →
      lookup0 monthly_totals c.fromMonth = 0 → c.percent_change = 0) ∧
    (evaluate_prediction p 0).2 = 0 ∧
    ((rent_affordability_report cfg target_month apa appm bns).projected_income = 0 →
      (rent_affordability_report cfg target_month apa appm bns).rent_pct_income = 0 ∧
      (rent_affordability_report cfg target_month apa appm bns).spend_pct_income = 0) := by
  refine ⟨?_, ?_, ?_⟩
  · intro hsome hc hz
    by_cases hlen : (sortKeys monthly_totals).length < 2
    · simp [calculate_month_over_month_change, hlen] at hsome
    · simp only [calculate_month_over_month_change, if_neg hlen,
        Option.some_inj] at hsome
      subst hsome
      rcases List.mem_map.mp hc with ⟨j, hj, hcj⟩
      subst hcj
      simp at hz
      simp [hz]
  · simp [evaluate_prediction]
  · simp only [rent_affordability_report]
    intro h
    rw [h]
    norm_num

/-- C8 witness: a zero previous month, a zero actual, and a zero projected
income each produce a 0 ratio. -/
theorem zero_denominator_policy_witness :
    ({ fromMonth := "2026-01", toMonth := "2026-02", change := 5,
        percent_change := 0 } : Change).percent_change = 0 ∧
    (evaluate_prediction 7 0).2 = 0 ∧
    (rent_affordability_report ⟨some 0, 1400, "2026-02", 14⟩ "2026-03"
      0 0 0).rent_pct_income = 0 ∧
    (rent_affordability_report ⟨some 0, 1400, "2026-02", 14⟩ "2026-03"
      0 0 0).spend_pct_income = 0 := by
  have h := zero_denominator_policy [("2026-01", (0 : ℚ)), ("2026-02", 5)]
    ⟨"2026-01", "2026-02", 5, 0⟩ [⟨"2026-01", "2026-02", 5, 0⟩] 7
    ⟨some 0, 1400, "2026-02", 14⟩ "2026-03" 0 0 0
  have hs : sortKeys [("2026-01", (0 : ℚ)), ("2026-02", 5)] =
      ["2026-01", "2026-02"] := by decide
  have hmom : calculate_month_over_month_change
      [("2026-01", (0 : ℚ)), ("2026-02", 5)] =
      some [⟨"2026-01", "2026-02", 5, 0⟩] := by
    simp [calculate_month_over_month_change, hs, lookup0, List.range_succ]
  have hz : lookup0 [("2026-01", (0 : ℚ)), ("2026-02", 5)] "2026-01" = 0 := by
    simp [lookup0]
  have hinc : (rent_affordability_report ⟨some 0, 1400, "2026-02", 14⟩ "2026-03"
      0 0 0).projected_income = 0 := rfl
  exact ⟨h.1 hmom (by simp) hz, h.2.1, (h.2.2 hinc).1, (h.2.2 hinc).2⟩

/-- C6: for a positive window size, the baseline estimator uses exactly the
most recent `windowSize` keys of the lexicographically sorted months (a
suffix of the sorted keys, all of them when fewer exist), and returns the
mean over those months of the per-month sums of absolute non-"Rent"
category totals — 0 with an empty month list when no month is selected. -/
theorem estimate_baseline_spec
    (monthly_category_totals : List (String × List (String × ℚ)))
    (windowSize : Nat) (hws : 1 ≤ windowSize)
    (hnd : (monthly_category_totals.map Prod.fst).Nodup) :
    (estimate_baseline_nonrent_spending monthly_category_totals windowSize).2 =
      (sortKeys monthly_category_totals).drop
        ((sortKeys monthly_category_totals).length - windowSize) ∧
    ((estimate_baseline_nonrent_spending monthly_category_totals windowSize).2).length =
      min windowSize (sortKeys monthly_category_totals).length ∧
    (estimate_baseline_nonrent_spending monthly_category_totals windowSize).2 <:+
      sortKeys monthly_category_totals ∧
    (estimate_baseline_nonrent_spending monthly_category_totals windowSize).1 =
      (if ((sortKeys monthly_category_totals).drop
          ((sortKeys monthly_category_totals).length - windowSize)).isEmpty then 0
       else ((((sortKeys monthly_category_totals).drop
            ((sortKeys monthly_category_totals).length - windowSize)).map (fun m =>
          (((lookupMap monthly_category_totals m).filter (fun q => q.1 != "Rent")).map
            (fun q => |q.2|)).sum)).sum /
        ((((sortKeys monthly_category_totals).drop
            ((sortKeys monthly_category_totals).length - windowSize)).length : ℕ) : ℚ))) := by
  have hrec : (if (sortKeys monthly_category_totals).length ≥ windowSize then
      sliceLast (sortKeys monthly_category_totals) windowSize
      else sortKeys monthly_category_totals) =
      (sortKeys monthly_category_totals).drop
        ((sortKeys monthly_category_totals).length - windowSize) :=
    window_eq_drop _ _ hws
  by_cases hD : ((sortKeys monthly_category_totals).drop
      ((sortKeys monthly_category_totals).length - windowSize)) = []
  · have hlen0 : (sortKeys monthly_category_totals).length = 0 := by
      have := List.length_drop ((sortKeys monthly_category_totals).length - windowSize)
        (sortKeys monthly_category_totals)
      rw [hD] at this
      simp at this
      omega
    refine ⟨?_, ?_, ?_, ?_⟩
    · simp [estimate_baseline_nonrent_spending, hrec, hD]
    · simp [estimate_baseline_nonrent_spending, hrec, hD]
      omega
    · simp [estimate_baseline_nonrent_spending, hrec, hD]
    · simp [estimate_baseline_nonrent_spending, hrec, hD]
  · have hlen : ((sortKeys monthly_category_totals).drop
        ((sortKeys monthly_category_totals).length - windowSize)).length =
        (sortKeys monthly_category_totals).length -
          ((sortKeys monthly_category_totals).length - windowSize) :=
      List.length_drop _ _
    refine ⟨?_, ?_, ?_, ?_⟩
    · simp [estimate_baseline_nonrent_spending, hrec, hD]
    · simp [estimate_baseline_nonrent_spending, hrec, hD]
      omega
    · simp only [estimate_baseline_nonrent_spending, hrec]
      rw [if_neg (by simpa using hD)]
      exact List.drop_suffix _ _
    · simp [estimate_baseline_nonrent_spending, hrec, hD]

/-- C6 witness: two months of history with a window of two. -/
theorem estimate_baseline_spec_witness :
    (estimate_baseline_nonrent_spending
      [("2026-01", [("Food", (-100 : ℚ)), ("Rent", -1400)]),
       ("2026-02", [("Food", -50)])] 2).2 = ["2026-01", "2026-02"] ∧
    (estimate_baseline_nonrent_spending
      [("2026-01", [("Food", (-100 : ℚ)), ("Rent", -1400)]),
       ("2026-02", [("Food", -50)])] 2).1 = 75 := by
  have h := estimate_baseline_spec
    [("2026-01", [("Food", (-100 : ℚ)), ("Rent", -1400)]), ("2026-02", [("Food", -50)])]
    2 (by norm_num) (by decide)
  have hs : sortKeys
      [("2026-01", [("Food", (-100 : ℚ)), ("Rent", -1400)]), ("2026-02", [("Food", -50)])] =
      ["2026-01", "2026-02"] := by decide
  constructor
  · rw [h.1, hs]
    decide
  · rw [h.2.2.2, hs]
    simp [lookupMap, lookup0]
    norm_num

/-- Characterization of `estimate_paycheck_pattern` for nonempty rows and a
positive window: the average amount ranges over ALL income rows, while the
average paychecks per month ranges over the trailing window of sorted
months. -/
theorem estimate_paycheck_pattern_eq (income_rows : List Record)
    (months_back : Nat) (hne : income_rows ≠ []) (hmb : 1 ≤ months_back) :
    estimate_paycheck_pattern income_rows months_back =
      ((income_rows.map (fun r => r.amount)).sum / (income_rows.length : ℚ),
       (((sortKeys (paychecksByMonth income_rows)).drop
            ((sortKeys (paychecksByMonth income_rows)).length - months_back)).map
          (lookup0 (paychecksByMonth income_rows))).sum /
         (((sortKeys (paychecksByMonth income_rows)).drop
            ((sortKeys (paychecksByMonth income_rows)).length - months_back)).length : ℚ),
       (sortKeys (paychecksByMonth income_rows)).drop
         ((sortKeys (paychecksByMonth income_rows)).length - months_back)) := by
  have hrec := window_eq_drop (sortKeys (paychecksByMonth income_rows)) months_back hmb
  have hpb : paychecksByMonth income_rows ≠ [] := paychecksByMonth_ne_nil _ hne
  have hslen : (sortKeys (paychecksByMonth income_rows)).length =
      (paychecksByMonth income_rows).length := length_sortKeys _
  have hl : 0 < (paychecksByMonth income_rows).length := List.length_pos.mpr hpb
  have hNE : ¬ ((sortKeys (paychecksByMonth income_rows)).drop
      ((sortKeys (paychecksByMonth income_rows)).length - months_back)).isEmpty = true := by
    rw [List.isEmpty_iff, List.drop_eq_nil_iff]
    omega
  simp only [estimate_paycheck_pattern]
  rw [if_neg (by simpa using hne), hrec, if_neg hNE]
  simp

/-- C5 counterexample: with one paycheck in each of 2026-01 (100), 2026-02
(200) and 2026-03 (300) and a two-month window, the code averages paycheck
amounts over ALL rows, giving projected income (600/3) * 1 = 200, whereas
the claim's window-restricted amounts give ((200+300)/2) * 1 = 250. -/
theorem projected_income_counterexample :
    (rent_affordability_report ⟨none, 1400, "2026-02", 14⟩ "2026-05"
      (estimate_paycheck_pattern
        [⟨⟨2026, 1, 1⟩, "", 100, "income", ""⟩, ⟨⟨2026, 2, 1⟩, "", 200, "income", ""⟩,
         ⟨⟨2026, 3, 1⟩, "", 300, "income", ""⟩] 2).1
      (estimate_paycheck_pattern
        [⟨⟨2026, 1, 1⟩, "", 100, "income", ""⟩, ⟨⟨2026, 2, 1⟩, "", 200, "income", ""⟩,
         ⟨⟨2026, 3, 1⟩, "", 300, "income", ""⟩] 2).2.1
      0).projected_income = 200 ∧
    ((((List.filter (fun r =>
          decide (r.date.monthKey ∈ (estimate_paycheck_pattern
            [⟨⟨2026, 1, 1⟩, "", 100, "income", ""⟩, ⟨⟨2026, 2, 1⟩, "", 200, "income", ""⟩,
             ⟨⟨2026, 3, 1⟩, "", 300, "income", ""⟩] 2).2.2))
        ([⟨⟨2026, 1, 1⟩, "", 100, "income", ""⟩, ⟨⟨2026, 2, 1⟩, "", 200, "income", ""⟩,
          ⟨⟨2026, 3, 1⟩, "", 300, "income", ""⟩] : List Record)).map (fun r => r.amount)).sum /
      ((List.filter (fun r =>
          decide (r.date.monthKey ∈ (estimate_paycheck_pattern
            [⟨⟨2026, 1, 1⟩, "", 100, "income", ""⟩, ⟨⟨2026, 2, 1⟩, "", 200, "income", ""⟩,
             ⟨⟨2026, 3, 1⟩, "", 300, "income", ""⟩] 2).2.2))
        ([⟨⟨2026, 1, 1⟩, "", 100, "income", ""⟩, ⟨⟨2026, 2, 1⟩, "", 200, "income", ""⟩,
          ⟨⟨2026, 3, 1⟩, "", 300, "income", ""⟩] : List Record)).length : ℚ)) *
      (estimate_paycheck_pattern
        [⟨⟨2026, 1, 1⟩, "", 100, "income", ""⟩, ⟨⟨2026, 2, 1⟩, "", 200, "income", ""⟩,
         ⟨⟨2026, 3, 1⟩, "", 300, "income", ""⟩] 2).2.1 = 250) ∧
    (200 : ℚ) ≠ 250 := by
  have hpb : paychecksByMonth
      [⟨⟨2026, 1, 1⟩, "", 100, "income", ""⟩, ⟨⟨2026, 2, 1⟩, "", 200, "income", ""⟩,
       ⟨⟨2026, 3, 1⟩, "", 300, "income", ""⟩] =
      [("2026-01", 1), ("2026-02", 1), ("2026-03", 1)] := by decide
  have hs : sortKeys [("2026-01", (1 : ℚ)), ("2026-02", 1), ("2026-03", 1)] =
      ["2026-01", "2026-02", "2026-03"] := by decide
  have hpat : estimate_paycheck_pattern
      [⟨⟨2026, 1, 1⟩, "", 100, "income", ""⟩, ⟨⟨2026, 2, 1⟩, "", 200, "income", ""⟩,
       ⟨⟨2026, 3, 1⟩, "", 300, "income", ""⟩] 2 =
      (200, 1, ["2026-02", "2026-03"]) := by
    rw [estimate_paycheck_pattern_eq _ 2 (by decide) (by norm_num), hpb, hs]
    norm_num [lookup0]
  refine ⟨?_, ?_, by norm_num⟩
  · have hfield : (rent_affordability_report ⟨none, 1400, "2026-02", 14⟩ "2026-05"
        (estimate_paycheck_pattern
          [⟨⟨2026, 1, 1⟩, "", 100, "income", ""⟩, ⟨⟨2026, 2, 1⟩, "", 200, "income", ""⟩,
           ⟨⟨2026, 3, 1⟩, "", 300, "income", ""⟩] 2).1
        (estimate_paycheck_pattern
          [⟨⟨2026, 1, 1⟩, "", 100, "income", ""⟩, ⟨⟨2026, 2, 1⟩, "", 200, "income", ""⟩,
           ⟨⟨2026, 3, 1⟩, "", 300, "income", ""⟩] 2).2.1
        0).projected_income =
        (estimate_paycheck_pattern
          [⟨⟨2026, 1, 1⟩, "", 100, "income", ""⟩, ⟨⟨2026, 2, 1⟩, "", 200, "income", ""⟩,
           ⟨⟨2026, 3, 1⟩, "", 300, "income", ""⟩] 2).1 *
        (estimate_paycheck_pattern
          [⟨⟨2026, 1, 1⟩, "", 100, "income", ""⟩, ⟨⟨2026, 2, 1⟩, "", 200, "income", ""⟩,
           ⟨⟨2026, 3, 1⟩, "", 300, "income", ""⟩] 2).2.1 := rfl
    rw [hfield, hpat]
    norm_num
  · simp only [hpat]
    have hw : List.filter (fun r => decide (r.date.monthKey ∈ ["2026-02", "2026-03"]))
        [⟨⟨2026, 1, 1⟩, "", 100, "income", ""⟩,
         (⟨⟨2026, 2, 1⟩, "", 200, "income", ""⟩ : Record),
         ⟨⟨2026, 3, 1⟩, "", 300, "income", ""⟩] =
        [⟨⟨2026, 2, 1⟩, "", 200, "income", ""⟩, ⟨⟨2026, 3, 1⟩, "", 300, "income", ""⟩] := by
      decide
    simp only [hw]
    norm_num

/-- C5 amended: with a configured override the projected income is the
override value; without one it is avgPaycheckAmount * avgPaychecksPerMonth,
where avgPaycheckAmount is the mean over ALL income records' amounts (not
restricted to the window) and avgPaychecksPerMonth is the mean of the
per-month paycheck counts over the trailing window of the most recent
months. -/
theorem projected_income_spec (cfg : Config) (income_rows : List Record)
    (months_back : Nat) (target_month : String) (bns v : ℚ)
    (hne : income_rows ≠ []) (hmb : 1 ≤ months_back) :
    (rent_affordability_report { cfg with income_override_monthly := some v }
        target_month (estimate_paycheck_pattern income_rows months_back).1
        (estimate_paycheck_pattern income_rows months_back).2.1
        bns).projected_income = v ∧
    (rent_affordability_report { cfg with income_override_monthly := none }
        target_month (estimate_paycheck_pattern income_rows months_back).1
        (estimate_paycheck_pattern income_rows months_back).2.1
        bns).projected_income =
      ((income_rows.map (fun r => r.amount)).sum / (income_rows.length : ℚ)) *
        ((((estimate_paycheck_pattern income_rows months_back).2.2).map (fun m =>
            ((income_rows.filter (fun r => r.date.monthKey == m)).length : ℚ))).sum /
          (((estimate_paycheck_pattern income_rows months_back).2.2).length : ℚ)) ∧
    (estimate_paycheck_pattern income_rows months_back).2.2 =
      (sortKeys (paychecksByMonth income_rows)).drop
        ((sortKeys (paychecksByMonth income_rows)).length - months_back) ∧
    (estimate_paycheck_pattern income_rows months_back).2.2 ≠ [] := by
  have hp := estimate_paycheck_pattern_eq income_rows months_back hne hmb
  have hfield : (rent_affordability_report
      { cfg with income_override_monthly := none } target_month
      (estimate_paycheck_pattern income_rows months_back).1
      (estimate_paycheck_pattern income_rows months_back).2.1
      bns).projected_income =
      (estimate_paycheck_pattern income_rows months_back).1 *
        (estimate_paycheck_pattern income_rows months_back).2.1 := rfl
  have hwin : (estimate_paycheck_pattern income_rows months_back).2.2 =
      (sortKeys (paychecksByMonth income_rows)).drop
        ((sortKeys (paychecksByMonth income_rows)).length - months_back) := by
    rw [hp]
  have hmapc : ((estimate_paycheck_pattern income_rows months_back).2.2).map
      (lookup0 (paychecksByMonth income_rows)) =
      ((estimate_paycheck_pattern income_rows months_back).2.2).map (fun m =>
        ((income_rows.filter (fun r => r.date.monthKey == m)).length : ℚ)) :=
    List.map_congr_left (fun m _ => lookup0_paychecksByMonth income_rows m)
  refine ⟨rfl, ?_, hwin, ?_⟩
  · rw [hfield, ← hmapc]
    rw [hp]
  · rw [hwin]
    have hpb : paychecksByMonth income_rows ≠ [] := paychecksByMonth_ne_nil _ hne
    have hslen : (sortKeys (paychecksByMonth income_rows)).length =
        (paychecksByMonth income_rows).length := length_sortKeys _
    have hl : 0 < (paychecksByMonth income_rows).length := List.length_pos.mpr hpb
    rw [Ne, List.drop_eq_nil_iff]
    omega

/-- C5 amended witness: override 3300 wins over the paycheck statistics. -/
theorem projected_income_spec_witness :
    (rent_affordability_report ⟨some 3300, 1400, "2026-02", 14⟩ "2026-03"
      (estimate_paycheck_pattern [⟨⟨2026, 1, 1⟩, "", 100, "income", ""⟩] 2).1
      (estimate_paycheck_pattern [⟨⟨2026, 1, 1⟩, "", 100, "income", ""⟩] 2).2.1
      0).projected_income = 3300 := by
  have h := projected_income_spec ⟨none, 1400, "2026-02", 14⟩
    [⟨⟨2026, 1, 1⟩, "", 100, "income", ""⟩] 2 "2026-03" 0 3300
    (by decide) (by norm_num)
  exact h.1

/-- The alerts emitted for one entry of the budgets dict (the body of the
`evaluate_budgets` loop). -/
def alertsForEntry (month_data : List (String × ℚ)) (p : String × ℚ) :
    List BudgetAlert :=
  let spent := lookup0 month_data p.1
  let pct_used := if p.2 > 0 then spent / p.2 * 100 else 0
  if pct_used ≥ 100 then
    [{ level := .overBudget, category := p.1, spent := spent,
       budget := p.2, pct_used := pct_used }]
  else if pct_used ≥ 80 then
    [{ level := .warning, category := p.1, spent := spent,
       budget := p.2, pct_used := pct_used }]
  else []

/-- The append-only loop of `evaluate_budgets` concatenates the per-entry
alert lists in order. -/
theorem evaluate_budgets_eq_flatMap
    (monthly_category_totals : List (String × List (String × ℚ)))
    (current_month : String) (budgets : List (String × ℚ)) :
    evaluate_budgets monthly_category_totals current_month budgets =
      budgets.flatMap
        (alertsForEntry (lookupMap monthly_category_totals current_month)) := by
  simp only [evaluate_budgets]
  have h : ∀ (bs : List (String × ℚ)) (acc : List BudgetAlert),
      bs.foldl (fun alerts p =>
        let spent := lookup0 (lookupMap monthly_category_totals current_month) p.1
        let pct_used := if p.2 > 0 then spent / p.2 * 100 else 0
        if pct_used ≥ 100 then
          alerts ++ [{ level := .overBudget, category := p.1, spent := spent,
                       budget := p.2, pct_used := pct_used }]
        else if pct_used ≥ 80 then
          alerts ++ [{ level := .warning, category := p.1, spent := spent,
                       budget := p.2, pct_used := pct_used }]
        else alerts) acc =
      acc ++ bs.flatMap
        (alertsForEntry (lookupMap monthly_category_totals current_month)) := by
    intro bs
    induction bs with
    | nil => simp
    | cons p t ih =>
      intro acc
      simp only [List.foldl_cons, List.flatMap_cons]
      by_cases h1 : (if p.2 > 0 then
          lookup0 (lookupMap monthly_category_totals current_month) p.1 / p.2 * 100
          else 0) ≥ 100
      · simp only [if_pos h1, ih, alertsForEntry, List.append_assoc]
      · by_cases h2 : (if p.2 > 0 then
            lookup0 (lookupMap monthly_category_totals current_month) p.1 / p.2 * 100
            else 0) ≥ 80
        · simp only [if_neg h1, if_pos h2, ih, alertsForEntry, List.append_assoc]
        · simp only [if_neg h1, if_neg h2, ih, alertsForEntry]
          simp
  rw [h]
  simp
/-- Case analysis for membership in the alerts of one budgets entry. -/
theorem alertsForEntry_cases (md : List (String × ℚ)) (p : String × ℚ)
    (a : BudgetAlert) (ha : a ∈ alertsForEntry md p) :
    (a = { level := .overBudget, category := p.1, spent := lookup0 md p.1,
           budget := p.2,
           pct_used := if p.2 > 0 then lookup0 md p.1 / p.2 * 100 else 0 } ∧
      (if p.2 > 0 then lookup0 md p.1 / p.2 * 100 else 0) ≥ 100) ∨
    (a = { level := .warning, category := p.1, spent := lookup0 md p.1,
           budget := p.2,
           pct_used := if p.2 > 0 then lookup0 md p.1 / p.2 * 100 else 0 } ∧
      (if p.2 > 0 then lookup0 md p.1 / p.2 * 100 else 0) ≥ 80 ∧
      ¬ (if p.2 > 0 then lookup0 md p.1 / p.2 * 100 else 0) ≥ 100) := by
  simp only [alertsForEntry] at ha
  by_cases h1 : (if p.2 > 0 then lookup0 md p.1 / p.2 * 100 else 0) ≥ 100
  · rw [if_pos h1, List.mem_singleton] at ha
    exact Or.inl ⟨ha, h1⟩
  · by_cases h2 : (if p.2 > 0 then lookup0 md p.1 / p.2 * 100 else 0) ≥ 80
    · rw [if_neg h1, if_pos h2, List.mem_singleton] at ha
      exact Or.inr ⟨ha, h2, h1⟩
    · rw [if_neg h1, if_neg h2] at ha
      cases ha

/-- C9: only budgeted categories are evaluated; for a budgeted category with
pct = spend/ceiling*100 (0 when ceiling ≤ 0), an over-budget alert is
emitted exactly when pct ≥ 100 and a warning exactly when 80 ≤ pct < 100,
nothing otherwise; concretely 350 against 400 warns (87.5%), 420 against
400 is over budget (105%), and 100 against 400 is silent. -/
theorem evaluate_budgets_spec
    (monthly_category_totals : List (String × List (String × ℚ)))
    (current_month : String) (budgets : List (String × ℚ)) (cat : String)
    (ceiling : ℚ) (hnd : (budgets.map Prod.fst).Nodup)
    (hmem : (cat, ceiling) ∈ budgets) :
    (∀ a ∈ evaluate_budgets monthly_category_totals current_month budgets,
      ∃ b, (a.category, b) ∈ budgets) ∧
    (({ level := .overBudget, category := cat,
        spent := lookup0 (lookupMap monthly_category_totals current_month) cat,
        budget := ceiling,
        pct_used := if ceiling > 0 then
          lookup0 (lookupMap monthly_category_totals current_month) cat / ceiling * 100
          else 0 } : BudgetAlert) ∈
        evaluate_budgets monthly_category_totals current_month budgets ↔
      (if ceiling > 0 then
        lookup0 (lookupMap monthly_category_totals current_month) cat / ceiling * 100
        else 0) ≥ 100) ∧
    (({ level := .warning, category := cat,
        spent := lookup0 (lookupMap monthly_category_totals current_month) cat,
        budget := ceiling,
        pct_used := if ceiling > 0 then
          lookup0 (lookupMap monthly_category_totals current_month) cat / ceiling * 100
          else 0 } : BudgetAlert) ∈
        evaluate_budgets monthly_category_totals current_month budgets ↔
      (80 ≤ (if ceiling > 0 then
        lookup0 (lookupMap monthly_category_totals current_month) cat / ceiling * 100
        else 0) ∧
       (if ceiling > 0 then
        lookup0 (lookupMap monthly_category_totals current_month) cat / ceiling * 100
        else 0) < 100)) ∧
    ((if ceiling > 0 then
        lookup0 (lookupMap monthly_category_totals current_month) cat / ceiling * 100
        else 0) < 80 →
      ∀ a ∈ evaluate_budgets monthly_category_totals current_month budgets,
        a.category ≠ cat) ∧
    evaluate_budgets [("2026-01", [("Food", 350)])] "2026-01" [("Food", 400)] =
      [{ level := .warning, category := "Food", spent := 350, budget := 400,
         pct_used := 175 / 2 }] ∧
    evaluate_budgets [("2026-01", [("Food", 420)])] "2026-01" [("Food", 400)] =
      [{ level := .overBudget, category := "Food", spent := 420, budget := 400,
         pct_used := 105 }] ∧
    evaluate_budgets [("2026-01", [("Food", 100)])] "2026-01" [("Food", 400)] = [] := by
  refine ⟨?_, ?_, ?_, ?_, ?_, ?_, ?_⟩
  · rw [evaluate_budgets_eq_flatMap]
    intro a ha
    rcases List.mem_flatMap.mp ha with ⟨p, hp, hap⟩
    rcases alertsForEntry_cases _ _ _ hap with ⟨he, _⟩ | ⟨he, _, _⟩ <;>
    · subst he
      exact ⟨p.2, by simpa using hp⟩
  · rw [evaluate_budgets_eq_flatMap]
    constructor
    · intro ha
      rcases List.mem_flatMap.mp ha with ⟨p, hp, hap⟩
      rcases alertsForEntry_cases _ _ _ hap with ⟨he, hge⟩ | ⟨he, _, _⟩
      · have hcat : cat = p.1 := congrArg BudgetAlert.category he
        have hb : ceiling = p.2 := congrArg BudgetAlert.budget he
        rw [hcat, hb]
        exact hge
      · exact absurd (congrArg BudgetAlert.level he) (by intro e; cases e)
    · intro h100
      refine List.mem_flatMap.mpr ⟨(cat, ceiling), hmem, ?_⟩
      simp [alertsForEntry, h100]
  · rw [evaluate_budgets_eq_flatMap]
    constructor
    · intro ha
      rcases List.mem_flatMap.mp ha with ⟨p, hp, hap⟩
      rcases alertsForEntry_cases _ _ _ hap with ⟨he, _⟩ | ⟨he, h80, hn100⟩
      · exact absurd (congrArg BudgetAlert.level he) (by intro e; cases e)
      · have hcat : cat = p.1 := congrArg BudgetAlert.category he
        have hb : ceiling = p.2 := congrArg BudgetAlert.budget he
        rw [hcat, hb]
        exact ⟨h80, by simpa using hn100⟩
    · intro hw
      refine List.mem_flatMap.mpr ⟨(cat, ceiling), hmem, ?_⟩
      have h1 : ¬ ((if ceiling > 0 then
          lookup0 (lookupMap monthly_category_totals current_month) cat / ceiling * 100
          else 0) ≥ 100) := by
        push_neg
        exact hw.2
      simp [alertsForEntry, h1, hw.1]
  · rw [evaluate_budgets_eq_flatMap]
    intro hlt a ha hacat
    rcases List.mem_flatMap.mp ha with ⟨p, hp, hap⟩
    rcases alertsForEntry_cases _ _ _ hap with ⟨he, hge⟩ | ⟨he, h80, _⟩
    · have hcat : a.category = p.1 := by rw [he]
      rw [hacat] at hcat
      have hpb : ceiling = p.2 := by
        refine nodup_keys_value_eq budgets hnd cat ceiling p.2 hmem ?_
        rw [hcat]
        simpa using hp
      rw [← hpb, ← hcat] at hge
      linarith
    · have hcat : a.category = p.1 := by rw [he]
      rw [hacat] at hcat
      have hpb : ceiling = p.2 := by
        refine nodup_keys_value_eq budgets hnd cat ceiling p.2 hmem ?_
        rw [hcat]
        simpa using hp
      rw [← hpb, ← hcat] at h80
      linarith
  · simp [evaluate_budgets, lookupMap, lookup0]
    norm_num
  · simp [evaluate_budgets, lookupMap, lookup0]
    norm_num
  · simp [evaluate_budgets, lookupMap, lookup0]
    norm_num

/-- C9 witness: the warning example instantiated through the theorem. -/
theorem evaluate_budgets_spec_witness :
    evaluate_budgets [("2026-01", [("Food", 350)])] "2026-01" [("Food", 400)] =
      [{ level := .warning, category := "Food", spent := 350, budget := 400,
         pct_used := 175 / 2 }] := by
  have h := evaluate_budgets_spec [("2026-01", [("Food", 350)])] "2026-01"
    [("Food", 400)] "Food" 400 (by decide) (by simp)
  exact h.2.2.2.2.1
